import Mathlib

/-!
Verification of the tenant-isolation and resource-governance core of the
lms-logos repository: a shallow embedding in Lean 4 of the scoped cache
(`src/lib/cache-utils.ts`), the JWT resolver and permission checks
(`src/lib/jwt-utils.ts`), the organization-access guard
(`src/lib/api-utils.ts`), and the fixed-window rate limiter
(`src/middleware/rate-limiter.ts`), together with theorems settling the
specified properties of these components.

Timestamps (JavaScript `Date.now()` values and second-granularity JWT
times) are embedded as `Int`; JavaScript `Map` state is embedded as an
association list with unique keys; the Supabase backing store of the rate
limiter is embedded as the optional stored row for one subject key, with
the `select` read and `upsert` write made explicit so that sequential and
interleaved executions can both be expressed.
-/

namespace JwtUtils

/-- The `JWTPayload` interface of `jwt-utils.ts`: `sub`, `organization_id`,
`role`, `iat`, `exp`.  A JSON field that is missing or the empty string is
embedded as `""`, matching the JavaScript truthiness test
`!payload.sub || !payload.organization_id` used by the validator. -/
structure JWTPayload where
  sub : String
  organization_id : String
  role : String
  iat : Int
  exp : Int
deriving DecidableEq, Repr

/-- The `OrganizationContext` interface of `jwt-utils.ts`. -/
structure OrganizationContext where
  userId : String
  organizationId : String
  role : String
deriving DecidableEq, Repr

/-- A bearer token after the purely syntactic decoding steps of
`validateOrganizationJWT`: `partsCount` is the number of segments produced
by `token.split(".")`, `payload` is the result of
`JSON.parse(atob(parts[1]))` (`none` when decoding throws), and
`signature` is the third segment `parts[2]`, kept as the base64 pre-image.
The base64 and JSON codecs themselves are injective serializations and are
abstracted away; everything the validator does with the decoded data is
embedded below. -/
structure DecodedToken where
  partsCount : Nat
  payload : Option JWTPayload
  signature : String
deriving DecidableEq, Repr

/-- The signature string that `createOrganizationJWT` attaches to a token
for a given payload (line 34 of `jwt-utils.ts`, before base64-encoding). -/
def mockSignature (p : JWTPayload) : String :=
  "signature-" ++ p.sub ++ "-" ++ p.organization_id

/-- `validateOrganizationJWT` of `jwt-utils.ts` (lines 40-70): checks that
the token has three `.`-separated parts, parses the payload, rejects an
expired token (`payload.exp < Math.floor(Date.now() / 1000)`, the current
time in seconds being `nowSec`), rejects a payload whose `sub` or
`organization_id` is falsy, and otherwise returns the context taken from
the decoded payload.  The signature segment is carried in `DecodedToken`
but, exactly as in the source, never examined. -/
def validateOrganizationJWT (t : DecodedToken) (nowSec : Int) :
    Except String OrganizationContext :=
  if t.partsCount ≠ 3 then .error "Invalid token format"
  else
    match t.payload with
    | none => .error "Invalid token payload"
    | some p =>
      if p.exp < nowSec then .error "Token expired"
      else if p.sub = "" ∨ p.organization_id = "" then .error "Invalid token payload"
      else .ok ⟨p.sub, p.organization_id, p.role⟩

/-- `createOrganizationCacheKey` of `jwt-utils.ts` (lines 92-99):
`{organizationId}:{resourceType}` with `:{resourceId}` appended when a
resource id is given. -/
def createOrganizationCacheKey (organizationId resourceType : String)
    (resourceId : Option String) : String :=
  let baseKey := organizationId ++ ":" ++ resourceType
  match resourceId with
  | some rid => baseKey ++ ":" ++ rid
  | none => baseKey

/-- `hasAdminPermissions` of `jwt-utils.ts` (lines 166-168). -/
def hasAdminPermissions (userRole : String) : Bool :=
  userRole == "org_admin" || userRole == "super_admin"

/-- `hasMentorPermissions` of `jwt-utils.ts` (lines 171-173). -/
def hasMentorPermissions (userRole : String) : Bool :=
  userRole == "mentor" || hasAdminPermissions userRole

/-- `hasLearnerPermissions` of `jwt-utils.ts` (lines 176-178): note that
the mentor role is not included. -/
def hasLearnerPermissions (userRole : String) : Bool :=
  userRole == "learner" || hasAdminPermissions userRole

/-- `canPerformAction` of `jwt-utils.ts` (lines 181-217). -/
def canPerformAction (userRole targetOrganizationId userOrganizationId
    action : String) : Bool :=
  if userRole == "super_admin" then true
  else if userOrganizationId != targetOrganizationId then false
  else
    match action with
    | "create_organization" => userRole == "super_admin"
    | "manage_users" => hasAdminPermissions userRole
    | "create_courses" => hasMentorPermissions userRole
    | "enroll_courses" => hasLearnerPermissions userRole
    | "view_analytics" => hasAdminPermissions userRole
    | _ => false

/-- The permission rule exactly as the specification states it: a linear
role hierarchy Learner < Mentor < OrgAdmin < SuperAdmin. -/
def roleRank (role : String) : Option Nat :=
  match role with
  | "learner" => some 0
  | "mentor" => some 1
  | "org_admin" => some 2
  | "super_admin" => some 3
  | _ => none

/-- The minimum role each action requires according to the specification's
fixed permission matrix (create-organization requires SuperAdmin; user
management and analytics require OrgAdmin or above; course creation
requires Mentor or above; enrollment requires Learner or above). -/
def minRoleRank (action : String) : Option Nat :=
  match action with
  | "create_organization" => some 3
  | "manage_users" => some 2
  | "create_courses" => some 1
  | "enroll_courses" => some 0
  | "view_analytics" => some 2
  | _ => none

/-- The authorization rule as the specification claims it: allow a
SuperAdmin always, and otherwise allow iff the principal is in the target
organization and their role meets or exceeds the action's minimum role.
This definition follows the specification's words and is compared against
`canPerformAction`, the definition taken from the source. -/
def claimAllows (userRole targetOrganizationId userOrganizationId
    action : String) : Bool :=
  userRole == "super_admin" ||
    (userOrganizationId == targetOrganizationId &&
      match roleRank userRole, minRoleRank action with
      | some rr, some mr => decide (mr ≤ rr)
      | _, _ => false)

end JwtUtils

namespace CacheUtils

/-- The `CacheItem` interface of `cache-utils.ts` (lines 8-13): the cached
payload, the `Date.now()` timestamp at which it was stored, the time to
live in milliseconds, and the owning organization. -/
structure CacheItem (T : Type) where
  data : T
  timestamp : Int
  ttl : Int
  organizationId : String
deriving DecidableEq, Repr

/-- The module-level `memoryCache` JavaScript `Map`, embedded as an
association list whose keys are unique (lookup returns the first, and the
operations below preserve uniqueness exactly as a `Map` does). -/
def Store (T : Type) := List (String × CacheItem T)

/-- `Map.get`: the binding for `k`, if present. -/
def mapGet {T : Type} (m : Store T) (k : String) : Option (CacheItem T) :=
  match m with
  | [] => none
  | (k', v) :: rest => if k' = k then some v else mapGet rest k

/-- `Map.delete`: drop the binding for `k`. -/
def mapDelete {T : Type} (m : Store T) (k : String) : Store T :=
  match m with
  | [] => []
  | (k', v) :: rest => if k' = k then mapDelete rest k else (k', v) :: mapDelete rest k

/-- `Map.set`: bind `k`, replacing any previous binding. -/
def mapSet {T : Type} (m : Store T) (k : String) (v : CacheItem T) : Store T :=
  (k, v) :: mapDelete m k

/-- `createCacheKey` of `cache-utils.ts` (lines 32-48): delegates to
`createOrganizationCacheKey` and appends `:{k=v&...}` when additional
query parameters are supplied. -/
def createCacheKey (organizationId resourceType : String)
    (resourceId : Option String)
    (additionalParams : Option (List (String × String))) : String :=
  let key := JwtUtils.createOrganizationCacheKey organizationId resourceType resourceId
  match additionalParams with
  | some ps =>
      let paramString := String.intercalate "&" (ps.map (fun p => p.1 ++ "=" ++ p.2))
      key ++ ":" ++ paramString
  | none => key

/-- `setCacheItem` of `cache-utils.ts` (lines 51-68): stores the payload
under the organization-scoped key with `timestamp = Date.now()` (the
parameter `now`) and `ttl` converted from seconds to milliseconds. -/
def setCacheItem {T : Type} (organizationId resourceType : String) (data : T)
    (resourceId : Option String) (ttl : Int) (now : Int) (store : Store T) :
    Store T :=
  let key := createCacheKey organizationId resourceType resourceId none
  mapSet store key ⟨data, now, ttl * 1000, organizationId⟩

/-- `getCacheItem` of `cache-utils.ts` (lines 71-96): looks the key up,
returns a miss when absent, returns a miss when the stored item belongs to
a different organization, lazily deletes and misses when
`Date.now() - item.timestamp > item.ttl`, and otherwise returns the
payload.  The result carries the possibly-updated store because an expired
read mutates it. -/
def getCacheItem {T : Type} (organizationId resourceType : String)
    (resourceId : Option String) (store : Store T) (now : Int) :
    Option T × Store T :=
  let key := createCacheKey organizationId resourceType resourceId none
  match mapGet store key with
  | none => (none, store)
  | some item =>
    if item.organizationId ≠ organizationId then (none, store)
    else if now - item.timestamp > item.ttl then (none, mapDelete store key)
    else (some item.data, store)

end CacheUtils

namespace RateLimiter

/-- The `RateLimitEntry` interface of `rate-limiter.ts` (lines 23-27): the
row stored in the `rate_limits` table for one subject key. -/
structure RateLimitEntry where
  count : Int
  resetTime : Int
  blocked : Bool
deriving DecidableEq, Repr

/-- The `RateLimitInfo` interface of `rate-limiter.ts` (lines 16-21). -/
structure RateLimitInfo where
  limit : Int
  remaining : Int
  reset : Int
  retryAfter : Option Int
deriving DecidableEq, Repr

/-- The result of one `RateLimiter.check` call: the admission decision and
the rate-limit metadata. -/
structure CheckResult where
  allowed : Bool
  info : RateLimitInfo
deriving DecidableEq, Repr

/-- JavaScript `Math.ceil(a / b)` for integers with `b > 0`: the exact
ceiling of the rational quotient. -/
def ceilDiv (a b : Int) : Int := -((-a) / b)

/-- The core of `RateLimiter.check` (`rate-limiter.ts` lines 106-178),
written over an explicit backing store: `stored` is the row the `select`
on line 87 returned for the subject key (`none` on a `PGRST116` no-rows
result), `now = Date.now()`, `windowMs` and `maxRequests` come from the
config.  The second component of the result is the row passed to the
`upsert` in `updateRateLimitEntry`, or `none` when the call performs no
write (the already-blocked branch).  The fail-open error paths around the
store calls are outside this model. -/
def check (windowMs maxRequests : Int) (stored : Option RateLimitEntry)
    (now : Int) : CheckResult × Option RateLimitEntry :=
  let currentEntry : RateLimitEntry :=
    match stored with
    | none => { count := 0, resetTime := now + windowMs, blocked := false }
    | some entry =>
      if entry.resetTime < now then
        { count := 0, resetTime := now + windowMs, blocked := false }
      else entry
  if currentEntry.blocked ∧ currentEntry.resetTime > now then
    let retryAfter := ceilDiv (currentEntry.resetTime - now) 1000
    (⟨false, ⟨maxRequests, 0, currentEntry.resetTime, some retryAfter⟩⟩, none)
  else if currentEntry.count ≥ maxRequests then
    let e2 : RateLimitEntry :=
      { currentEntry with blocked := true, count := maxRequests }
    let retryAfter := ceilDiv (e2.resetTime - now) 1000
    (⟨false, ⟨maxRequests, 0, e2.resetTime, some retryAfter⟩⟩, some e2)
  else
    let e2 : RateLimitEntry := { currentEntry with count := currentEntry.count + 1 }
    (⟨true, ⟨maxRequests, max 0 (maxRequests - e2.count), e2.resetTime, none⟩⟩,
      some e2)

/-- Apply the write half of a `check` call to the stored row: an `upsert`
replaces the row, and a call that performed no write leaves it unchanged. -/
def applyWrite (stored : Option RateLimitEntry)
    (write : Option RateLimitEntry) : Option RateLimitEntry :=
  match write with
  | some e => some e
  | none => stored

/-- Sequential (fully serialized) execution of `check` calls against one
subject key at the given times: each call's `upsert` completes before the
next call's `select`. -/
def runChecks (windowMs maxRequests : Int) (times : List Int)
    (stored : Option RateLimitEntry) : List CheckResult × Option RateLimitEntry :=
  match times with
  | [] => ([], stored)
  | t :: ts =>
    let step := check windowMs maxRequests stored t
    let rest := runChecks windowMs maxRequests ts (applyWrite stored step.2)
    (step.1 :: rest.1, rest.2)

/-- The racy interleaving of two concurrent `check` calls that the
read-then-write implementation admits: both calls' `select`s read the
store before either call's `upsert` lands, and then both writes are
applied.  Returns both admission decisions and the final stored row. -/
def interleavedReadRead (windowMs maxRequests : Int)
    (stored : Option RateLimitEntry) (now : Int) :
    Bool × Bool × Option RateLimitEntry :=
  let step1 := check windowMs maxRequests stored now
  let step2 := check windowMs maxRequests stored now
  let stored2 := applyWrite (applyWrite stored step1.2) step2.2
  (step1.1.allowed, step2.1.allowed, stored2)

/-- How many of a list of check results were admitted. -/
def countAllowed (rs : List CheckResult) : Nat :=
  (rs.filter (fun r => r.allowed)).length

end RateLimiter

namespace ApiUtils

/-- The outcome field of an audit record (`audit-logger.ts` line 15). -/
inductive Outcome where
  | success
  | failure
  | error
deriving DecidableEq, Repr

/-- The `AuditLogEntry` interface of `audit-logger.ts` (lines 6-16). -/
structure AuditLogEntry where
  user_id : String
  organization_id : String
  action : String
  resource_type : Option String
  resource_id : Option String
  outcome : Outcome
deriving DecidableEq, Repr

/-- The `AppError` shape thrown by `api-utils.ts`: message, HTTP status
code and machine-readable code. -/
structure AppError where
  message : String
  statusCode : Int
  code : String
deriving DecidableEq, Repr

/-- The `OrganizationContext` produced by `getOrganizationContext` in
`auth-middleware.ts` (lines 129-143) and consumed by `api-utils.ts`. -/
structure OrganizationContext where
  organizationId : String
  userId : String
  role : String
deriving DecidableEq, Repr

/-- `validateOrganizationAccess` of `api-utils.ts` (lines 227-246),
instrumented with the list of audit-log writes the call performs: it
throws `AUTHENTICATION_ERROR` when no context was resolved, lets a super
admin through, throws `AUTHORIZATION_ERROR` on an organization mismatch,
and otherwise returns.  The source body contains no call to the audit
logger on any path, so every branch emits the empty write list. -/
def validateOrganizationAccess (context : Option OrganizationContext)
    (targetOrganizationId : String) :
    Except AppError Unit × List AuditLogEntry :=
  match context with
  | none => (.error ⟨"Authentication required", 401, "AUTHENTICATION_ERROR"⟩, [])
  | some c =>
    if c.role = "super_admin" then (.ok (), [])
    else if c.organizationId ≠ targetOrganizationId then
      (.error ⟨"Access denied", 403, "AUTHORIZATION_ERROR"⟩, [])
    else (.ok (), [])

end ApiUtils

section MapLemmas

open CacheUtils

theorem mapGet_mapDelete {T : Type} (m : Store T) (k k' : String) :
    mapGet (mapDelete m k) k' = if k = k' then none else mapGet m k' := by
  induction m with
  | nil => simp [mapDelete, mapGet]
  | cons hd tl ih =>
    obtain ⟨k'', v⟩ := hd
    by_cases h1 : k'' = k <;> by_cases h2 : k'' = k' <;> by_cases h3 : k = k' <;>
      simp_all [mapDelete, mapGet]

theorem mapGet_mapSet {T : Type} (m : Store T) (k : String) (v : CacheItem T)
    (k' : String) :
    mapGet (mapSet m k v) k' = if k = k' then some v else mapGet m k' := by
  by_cases h : k = k' <;> simp [mapSet, mapGet, mapGet_mapDelete, h]

end MapLemmas

/-- C1: for distinct organizations `A ≠ B`, a value stored in the scoped
cache under `(A, resourceType, resourceId)` is never returned by a cache
get for `(B, resourceType, resourceId)`, even when the concatenated keys
collide: `getCacheItem` compares the stored item's `organizationId`
against the requester's before returning data, so a get for `B` can only
return data of an item owned by `B`, and the hypothesis that the stored
value `v` is fresh (not already cached for `B`) makes the conclusion
exactly the claim. -/
theorem cache_tenant_isolation {T : Type} (A B ty ty' : String)
    (rid rid' : Option String) (v : T) (ttl ts now : Int)
    (store : CacheUtils.Store T) (hAB : A ≠ B)
    (hfresh : ∀ k item, CacheUtils.mapGet store k = some item →
      item.organizationId = B → item.data ≠ v) :
    (CacheUtils.getCacheItem B ty rid
      (CacheUtils.setCacheItem A ty' v rid' ttl ts store) now).1 ≠ some v := by
  simp only [CacheUtils.getCacheItem, CacheUtils.setCacheItem, mapGet_mapSet]
  by_cases hk : CacheUtils.createCacheKey A ty' rid' none
      = CacheUtils.createCacheKey B ty rid none
  · simp [hk, hAB]
  · simp only [if_neg hk]
    cases h : CacheUtils.mapGet store (CacheUtils.createCacheKey B ty rid none) with
    | none => simp [h]
    | some item =>
      simp only [h]
      by_cases horg : item.organizationId ≠ B
      · simp [horg]
      · push_neg at horg
        by_cases hexp : now - item.timestamp > item.ttl
        · simp [horg, hexp]
        · simpa [horg, hexp] using hfresh _ item h horg

/-- Witness for C1 at a concrete input: organizations `orgA ≠ orgB`, an
empty cache, and the value `42` stored under `orgA`. -/
theorem cache_tenant_isolation_witness :
    ("orgA" : String) ≠ "orgB" ∧
    (CacheUtils.getCacheItem "orgB" "course" (some "1")
      (CacheUtils.setCacheItem "orgA" "course" (42 : Nat) (some "1") 300 0
        ([] : CacheUtils.Store Nat)) 0).1 ≠ some 42 :=
  ⟨by decide,
    cache_tenant_isolation "orgA" "orgB" "course" "course" (some "1") (some "1")
      42 300 0 0 [] (by decide)
      (fun k item h _ => absurd h (by simp [CacheUtils.mapGet]))⟩

/-- C9: cache expiry is lazy.  A `getCacheItem` performed after the stored
entry's time to live has elapsed (`now - timestamp > ttl` in
milliseconds) returns a miss, and that expired get also deletes the entry
from the cache. -/
theorem cache_expired_get_misses_and_deletes {T : Type} (org ty : String)
    (rid : Option String) (v : T) (ttl ts now : Int)
    (store : CacheUtils.Store T) (hexp : now - ts > ttl * 1000) :
    (CacheUtils.getCacheItem org ty rid
      (CacheUtils.setCacheItem org ty v rid ttl ts store) now).1 = none ∧
    CacheUtils.mapGet
      (CacheUtils.getCacheItem org ty rid
        (CacheUtils.setCacheItem org ty v rid ttl ts store) now).2
      (CacheUtils.createCacheKey org ty rid none) = none := by
  simp only [CacheUtils.getCacheItem, CacheUtils.setCacheItem, mapGet_mapSet,
    if_pos rfl]
  simp [hexp, mapGet_mapDelete]

/-- Witness for C9 at the specification's own concrete numbers: a set with
`ttl = 1` second at time 0 and a read at 1100 milliseconds misses and
removes the entry. -/
theorem cache_expired_get_witness :
    ((1100 : Int) - 0 > 1 * 1000) ∧
    ((CacheUtils.getCacheItem "o" "user" none
        (CacheUtils.setCacheItem "o" "user" (1 : Nat) none 1 0
          ([] : CacheUtils.Store Nat)) 1100).1 = none ∧
      CacheUtils.mapGet
        (CacheUtils.getCacheItem "o" "user" none
          (CacheUtils.setCacheItem "o" "user" (1 : Nat) none 1 0
            ([] : CacheUtils.Store Nat)) 1100).2
        (CacheUtils.createCacheKey "o" "user" none none) = none) :=
  ⟨by decide,
    cache_expired_get_misses_and_deletes "o" "user" none 1 1 0 1100 [] (by decide)⟩

/-- C7 counterexample: scoped-cache key construction does not reject or
escape a component containing the reserved delimiter.  With
`resourceType = "b:c"`, `createCacheKey` builds the plain concatenation
`"a:b:c:d"`, and the distinct organization/type pair `("a:b", "c")`
produces the identical key, which rejection or escaping would have
prevented. -/
theorem cache_key_delimiter_not_escaped_cex :
    CacheUtils.createCacheKey "a" "b:c" (some "d") none = "a:b:c:d" ∧
    CacheUtils.createCacheKey "a:b" "c" (some "d") none = "a:b:c:d" ∧
    (("a" : String), ("b:c" : String)) ≠ (("a:b" : String), ("c" : String)) := by
  refine ⟨by decide, by decide, by decide⟩

/-- C7 amended: key construction is plain string concatenation with `:`
between the components.  A `resourceType`/`resourceId` containing the
delimiter is neither rejected nor escaped — distinct component triples can
therefore collide — though components are never truncated: each appears
verbatim and in full in the key. -/
theorem cache_key_plain_concatenation :
    (∀ org ty rid : String, CacheUtils.createCacheKey org ty (some rid) none =
      org ++ ":" ++ ty ++ ":" ++ rid) ∧
    (∃ orgA tyA orgB tyB rid : String, orgA ≠ orgB ∧
      CacheUtils.createCacheKey orgA tyA (some rid) none =
        CacheUtils.createCacheKey orgB tyB (some rid) none) := by
  refine ⟨fun org ty rid => rfl, "a", "b:c", "a:b", "c", "d", by decide, by decide⟩

/-- C6 counterexample: credential resolution does not verify the
signature.  The token below carries the signature segment `"garbage"`,
which is not the signature `createOrganizationJWT` computes for its
payload, yet `validateOrganizationJWT` resolves it to a principal built
from the unverified claims instead of failing. -/
theorem jwt_signature_never_checked_cex :
    JwtUtils.mockSignature ⟨"user1", "orgA", "org_admin", 0, 100⟩ ≠ "garbage" ∧
    JwtUtils.validateOrganizationJWT
        ⟨3, some ⟨"user1", "orgA", "org_admin", 0, 100⟩, "garbage"⟩ 50 =
      .ok ⟨"user1", "orgA", "org_admin"⟩ :=
  ⟨by decide, rfl⟩

/-- C6 amended: resolution checks only the three-part format, expiry, and
presence of `sub` and `organization_id`; it succeeds for any such payload
regardless of the signature segment, producing the principal straight
from the decoded (never signature-verified) claims. -/
theorem jwt_validation_ignores_signature (p : JwtUtils.JWTPayload)
    (sig : String) (nowSec : Int) :
    JwtUtils.validateOrganizationJWT ⟨3, some p, sig⟩ nowSec =
      .ok ⟨p.sub, p.organization_id, p.role⟩ ↔
    ¬ p.exp < nowSec ∧ p.sub ≠ "" ∧ p.organization_id ≠ "" := by
  simp only [JwtUtils.validateOrganizationJWT]
  norm_num
  split_ifs with h2 h3 <;> first
    | (simp_all; tauto)
    | simp_all

/-- C10: every context the resolver produces has a non-empty `userId` and
a non-empty `organizationId`, taken verbatim from the decoded payload;
since the check `!payload.sub || !payload.organization_id` does not
depend on the role, even a `super_admin` credential lacking
`organization_id` fails resolution. -/
theorem jwt_principal_has_tenant (t : JwtUtils.DecodedToken) (nowSec : Int)
    (ctx : JwtUtils.OrganizationContext)
    (h : JwtUtils.validateOrganizationJWT t nowSec = .ok ctx) :
    ctx.userId ≠ "" ∧ ctx.organizationId ≠ "" ∧
    ∃ p, t.payload = some p ∧ ctx = ⟨p.sub, p.organization_id, p.role⟩ := by
  obtain ⟨pc, pl, sig⟩ := t
  by_cases h1 : pc = 3
  · subst h1
    cases pl with
    | none => exact absurd h (by simp [JwtUtils.validateOrganizationJWT])
    | some p =>
      simp only [JwtUtils.validateOrganizationJWT] at h
      norm_num at h
      split_ifs at h with h2 h3
      injection h with h4
      subst h4
      push_neg at h3
      exact ⟨h3.1, h3.2, p, rfl, rfl⟩
  · exact absurd h (by simp [JwtUtils.validateOrganizationJWT, h1])

/-- Witness for C10 at a concrete resolving token (note the role is
`super_admin` and the organization id is still mandatory and returned). -/
theorem jwt_principal_has_tenant_witness :
    JwtUtils.validateOrganizationJWT
        ⟨3, some ⟨"u", "o", "super_admin", 0, 100⟩, "s"⟩ 50 =
      .ok ⟨"u", "o", "super_admin"⟩ ∧
    (("u" : String) ≠ "" ∧ ("o" : String) ≠ "" ∧
      ∃ p, (JwtUtils.DecodedToken.mk 3
          (some ⟨"u", "o", "super_admin", 0, 100⟩) "s").payload = some p ∧
        (⟨"u", "o", "super_admin"⟩ : JwtUtils.OrganizationContext) =
          ⟨p.sub, p.organization_id, p.role⟩) :=
  ⟨rfl,
    jwt_principal_has_tenant ⟨3, some ⟨"u", "o", "super_admin", 0, 100⟩, "s"⟩ 50
      ⟨"u", "o", "super_admin"⟩ rfl⟩

/-- C5 counterexample: the permission matrix is not the meets-or-exceeds
hierarchy the claim states.  A mentor enrolling in a course in their own
organization is above the Learner minimum of the claimed matrix
(`claimAllows` admits them), but the code's `hasLearnerPermissions` omits
the mentor role, so `canPerformAction` denies them. -/
theorem canPerformAction_mentor_enroll_cex :
    JwtUtils.canPerformAction "mentor" "org1" "org1" "enroll_courses" = false ∧
    JwtUtils.claimAllows "mentor" "org1" "org1" "enroll_courses" = true := by
  decide

/-- C5 amended: for every role of the system and every action of the
permission matrix, authorization behaves exactly as the claim's
meets-or-exceeds rule except that a mentor is denied `enroll_courses`:
the code's learner check admits learners and admins but not mentors. -/
theorem canPerformAction_matrix_amended (r t u a : String)
    (hr : r ∈ ["super_admin", "org_admin", "mentor", "learner"])
    (ha : a ∈ ["create_organization", "manage_users", "create_courses",
      "enroll_courses", "view_analytics"]) :
    JwtUtils.canPerformAction r t u a =
      (JwtUtils.claimAllows r t u a &&
        !(a == "enroll_courses" && r == "mentor")) := by
  fin_cases hr <;> fin_cases ha <;>
    (by_cases h : u = t <;>
      simp [JwtUtils.canPerformAction, JwtUtils.claimAllows,
        JwtUtils.hasAdminPermissions, JwtUtils.hasMentorPermissions,
        JwtUtils.hasLearnerPermissions, JwtUtils.roleRank,
        JwtUtils.minRoleRank, h])

/-- Witness for C5's amended theorem at a concrete input: a learner
enrolling inside their own organization. -/
theorem canPerformAction_matrix_amended_witness :
    (("learner" : String) ∈ ["super_admin", "org_admin", "mentor", "learner"]) ∧
    (("enroll_courses" : String) ∈ ["create_organization", "manage_users",
      "create_courses", "enroll_courses", "view_analytics"]) ∧
    JwtUtils.canPerformAction "learner" "o" "o" "enroll_courses" =
      (JwtUtils.claimAllows "learner" "o" "o" "enroll_courses" &&
        !(("enroll_courses" : String) == "enroll_courses" &&
          ("learner" : String) == "mentor")) :=
  ⟨by decide, by decide,
    canPerformAction_matrix_amended "learner" "o" "o" "enroll_courses"
      (by decide) (by decide)⟩

/-- C4 counterexample: an OrgAdmin of organization `A` requesting access
to organization `B` is denied with `AUTHORIZATION_ERROR`, but the deny
path of `validateOrganizationAccess` performs no audit-log write at all —
in particular no record with `organizationId = A` and `outcome = failure`
accompanies the error the caller observes. -/
theorem authz_deny_has_no_audit_write_cex :
    ApiUtils.validateOrganizationAccess (some ⟨"A", "u1", "org_admin"⟩) "B" =
      (.error ⟨"Access denied", 403, "AUTHORIZATION_ERROR"⟩, []) ∧
    ¬ ∃ r ∈ (ApiUtils.validateOrganizationAccess
        (some ⟨"A", "u1", "org_admin"⟩) "B").2,
        r.organization_id = "A" ∧ r.outcome = .failure := by
  refine ⟨rfl, ?_⟩
  simp [ApiUtils.validateOrganizationAccess]

/-- C4 amended: every cross-tenant request by a non-super-admin principal
is denied with the `AUTHORIZATION_ERROR` (HTTP 403, "Access denied"), but
the denial is surfaced with an empty audit-write list: no deny decision is
accompanied by an audit-log record. -/
theorem authz_deny_has_no_audit_write (c : ApiUtils.OrganizationContext)
    (target : String) (hrole : c.role ≠ "super_admin")
    (horg : c.organizationId ≠ target) :
    ApiUtils.validateOrganizationAccess (some c) target =
      (.error ⟨"Access denied", 403, "AUTHORIZATION_ERROR"⟩,
        ([] : List ApiUtils.AuditLogEntry)) := by
  simp [ApiUtils.validateOrganizationAccess, hrole, horg]

/-- Witness for C4's amended theorem at the claim's own scenario: an
OrgAdmin of `A` targeting organization `B`. -/
theorem authz_deny_has_no_audit_write_witness :
    (("org_admin" : String) ≠ "super_admin") ∧ (("A" : String) ≠ "B") ∧
    ApiUtils.validateOrganizationAccess (some ⟨"A", "u1", "org_admin"⟩) "B" =
      (.error ⟨"Access denied", 403, "AUTHORIZATION_ERROR"⟩,
        ([] : List ApiUtils.AuditLogEntry)) :=
  ⟨by decide, by decide,
    authz_deny_has_no_audit_write ⟨"A", "u1", "org_admin"⟩ "B"
      (by decide) (by decide)⟩

section RateLimiterLemmas

open RateLimiter

theorem check_fresh (windowMs maxRequests t : Int) (h : 0 < maxRequests) :
    check windowMs maxRequests none t =
      (⟨true, ⟨maxRequests, max 0 (maxRequests - 1), t + windowMs, none⟩⟩,
        some ⟨1, t + windowMs, false⟩) := by
  simp [check, h.not_le]

theorem check_expired_fresh (windowMs maxRequests t : Int) (e : RateLimitEntry)
    (hr : e.resetTime < t) (h : 0 < maxRequests) :
    check windowMs maxRequests (some e) t =
      (⟨true, ⟨maxRequests, max 0 (maxRequests - 1), t + windowMs, none⟩⟩,
        some ⟨1, t + windowMs, false⟩) := by
  simp [check, hr, h.not_le]

theorem check_inwindow_allowed (windowMs maxRequests t : Int)
    (e : RateLimitEntry) (hr : ¬ e.resetTime < t) (hb : e.blocked = false)
    (hc : e.count < maxRequests) :
    check windowMs maxRequests (some e) t =
      (⟨true, ⟨maxRequests, max 0 (maxRequests - (e.count + 1)), e.resetTime,
          none⟩⟩,
        some ⟨e.count + 1, e.resetTime, false⟩) := by
  simp [check, hr, hb, hc.not_le]

theorem check_inwindow_denied (windowMs maxRequests t : Int)
    (e : RateLimitEntry) (hr : ¬ e.resetTime < t) (hb : e.blocked = false)
    (hc : maxRequests ≤ e.count) :
    check windowMs maxRequests (some e) t =
      (⟨false, ⟨maxRequests, 0, e.resetTime,
          some (ceilDiv (e.resetTime - t) 1000)⟩⟩,
        some ⟨maxRequests, e.resetTime, true⟩) := by
  simp [check, hr, hb, hc]

end RateLimiterLemmas

/-- C2 counterexample: the increment-and-compare of `RateLimiter.check` is
a `select` followed by an `upsert`, not one atomic store operation.  In
the interleaving where two concurrent checks both read before either
writes, both observe the stored `count = limit - 1 = 9` under
`limit = 10` and both are admitted — the situation the claim says can
never happen. -/
theorem rl_nonatomic_race_cex :
    RateLimiter.interleavedReadRead 60000 10 (some ⟨10 - 1, 60000, false⟩) 0 =
      (true, true, some ⟨10, 60000, false⟩) := by
  decide

/-- C2 amended: the check is read-then-write rather than atomic.  Under
fully serialized execution, 100 requests against one subject with
`limit = 10` are admitted exactly 10 times; but because each check reads
with a `select` and writes back with a separate `upsert`, the read-read
interleaving of two concurrent checks at stored `count = 9` admits both,
so the exactly-10-of-100 guarantee holds only without interleaving. -/
theorem rl_read_then_write_behavior :
    RateLimiter.countAllowed
        (RateLimiter.runChecks 60000 10 (List.replicate 100 (0 : Int)) none).1
      = 10 ∧
    (RateLimiter.interleavedReadRead 60000 10 (some ⟨9, 60000, false⟩) 0).1
      = true ∧
    (RateLimiter.interleavedReadRead 60000 10 (some ⟨9, 60000, false⟩) 0).2.1
      = true := by
  decide

/-- C3 counterexample: the windows are not the fixed windows
`floor(now / windowDuration)`.  With `windowDuration = 10`, a first
request at `t = 5` opens a window expiring at 15; a request at `t = 12`
lies in a different `floor`-window (`5 / 10 = 0 ≠ 1 = 12 / 10`) yet the
code continues the same counter (count 1 → 2, same reset time), and a
request landing exactly at the boundary `t = 15` is also counted in the
old window (count → 2), not the new one the claim prescribes. -/
theorem rl_window_not_aligned_cex :
    (RateLimiter.check 10 100 none 5).2 = some ⟨1, 15, false⟩ ∧
    (RateLimiter.check 10 100 (some ⟨1, 15, false⟩) 12).2 =
      some ⟨2, 15, false⟩ ∧
    (5 : Int) / 10 ≠ (12 : Int) / 10 ∧
    (RateLimiter.check 10 100 (some ⟨1, 15, false⟩) 15).2 =
      some ⟨2, 15, false⟩ := by
  decide

/-- C3 amended: windows are rolling, anchored at the first request: a
check on an empty store at time `t1` opens a window with
`resetTime = t1 + windowDuration`, and a later check at `t2` falls in the
same counting window (continues the counter) iff `t2 ≤ t1 +
windowDuration` — so a request landing exactly at the boundary belongs to
the old window, and window membership is not determined by
`floor(now / windowDuration)`. -/
theorem rl_rolling_window (windowMs maxRequests t1 t2 : Int)
    (h : 1 < maxRequests) :
    (RateLimiter.check windowMs maxRequests none t1).2 =
      some ⟨1, t1 + windowMs, false⟩ ∧
    (RateLimiter.check windowMs maxRequests
        (some ⟨1, t1 + windowMs, false⟩) t2).2 =
      some (if t1 + windowMs < t2 then ⟨1, t2 + windowMs, false⟩
            else ⟨2, t1 + windowMs, false⟩) := by
  constructor
  · rw [check_fresh windowMs maxRequests t1 (by omega)]
  · by_cases hw : t1 + windowMs < t2
    · rw [if_pos hw, check_expired_fresh windowMs maxRequests t2
        ⟨1, t1 + windowMs, false⟩ (by show t1 + windowMs < t2; exact hw)
        (by omega)]
    · rw [if_neg hw, check_inwindow_allowed windowMs maxRequests t2
        ⟨1, t1 + windowMs, false⟩ (by show ¬ t1 + windowMs < t2; exact hw) rfl
        (by show (1 : Int) < maxRequests; exact h)]
      norm_num

/-- Witness for C3's amended theorem with `windowDuration = 10`,
`limit = 100`, a first request at time 0 and a second at time 5. -/
theorem rl_rolling_window_witness :
    ((1 : Int) < 100) ∧
    ((RateLimiter.check 10 100 none 0).2 = some ⟨1, 0 + 10, false⟩ ∧
      (RateLimiter.check 10 100 (some ⟨1, 0 + 10, false⟩) 5).2 =
        some (if (0 : Int) + 10 < 5 then ⟨1, 5 + 10, false⟩
              else ⟨2, 0 + 10, false⟩)) :=
  ⟨by decide, rl_rolling_window 10 100 0 5 (by decide)⟩

/-- C8: with `limit = 5` and a 60-second window, a fresh subject's first
five in-window checks are all admitted, the sixth is denied with a reset
time equal to the window's end (hence within the current window), and a
check performed after the window has elapsed is admitted again. -/
theorem rl_limit5_scenario (t0 t7 : Int) (h7 : t0 + 60000 < t7) :
    ((RateLimiter.runChecks 60000 5 [t0, t0, t0, t0, t0, t0] none).1.map
        RateLimiter.CheckResult.allowed
      = [true, true, true, true, true, false]) ∧
    ((RateLimiter.runChecks 60000 5 [t0, t0, t0, t0, t0, t0] none).1.getLast?.map
        (fun c => c.info.reset) = some (t0 + 60000)) ∧
    (t0 < t0 + 60000) ∧
    ((RateLimiter.check 60000 5
        (RateLimiter.runChecks 60000 5 [t0, t0, t0, t0, t0, t0] none).2
        t7).1.allowed = true) := by
  have h1 : RateLimiter.check 60000 5 none t0 =
      (⟨true, ⟨5, 4, t0 + 60000, none⟩⟩, some ⟨1, t0 + 60000, false⟩) := by
    rw [check_fresh 60000 5 t0 (by norm_num)]
    norm_num
  have h2 : RateLimiter.check 60000 5 (some ⟨1, t0 + 60000, false⟩) t0 =
      (⟨true, ⟨5, 3, t0 + 60000, none⟩⟩, some ⟨2, t0 + 60000, false⟩) := by
    rw [check_inwindow_allowed 60000 5 t0 ⟨1, t0 + 60000, false⟩
      (by show ¬ t0 + 60000 < t0; omega) rfl (by show (1 : Int) < 5; norm_num)]
    norm_num
  have h3 : RateLimiter.check 60000 5 (some ⟨2, t0 + 60000, false⟩) t0 =
      (⟨true, ⟨5, 2, t0 + 60000, none⟩⟩, some ⟨3, t0 + 60000, false⟩) := by
    rw [check_inwindow_allowed 60000 5 t0 ⟨2, t0 + 60000, false⟩
      (by show ¬ t0 + 60000 < t0; omega) rfl (by show (2 : Int) < 5; norm_num)]
    norm_num
  have h4 : RateLimiter.check 60000 5 (some ⟨3, t0 + 60000, false⟩) t0 =
      (⟨true, ⟨5, 1, t0 + 60000, none⟩⟩, some ⟨4, t0 + 60000, false⟩) := by
    rw [check_inwindow_allowed 60000 5 t0 ⟨3, t0 + 60000, false⟩
      (by show ¬ t0 + 60000 < t0; omega) rfl (by show (3 : Int) < 5; norm_num)]
    norm_num
  have h5 : RateLimiter.check 60000 5 (some ⟨4, t0 + 60000, false⟩) t0 =
      (⟨true, ⟨5, 0, t0 + 60000, none⟩⟩, some ⟨5, t0 + 60000, false⟩) := by
    rw [check_inwindow_allowed 60000 5 t0 ⟨4, t0 + 60000, false⟩
      (by show ¬ t0 + 60000 < t0; omega) rfl (by show (4 : Int) < 5; norm_num)]
    norm_num
  have h6 : RateLimiter.check 60000 5 (some ⟨5, t0 + 60000, false⟩) t0 =
      (⟨false, ⟨5, 0, t0 + 60000, some 60⟩⟩, some ⟨5, t0 + 60000, true⟩) := by
    rw [check_inwindow_denied 60000 5 t0 ⟨5, t0 + 60000, false⟩
      (by show ¬ t0 + 60000 < t0; omega) rfl (by show (5 : Int) ≤ 5; norm_num)]
    have harg : t0 + 60000 - t0 = 60000 := by ring
    simp only [harg]
    norm_num [RateLimiter.ceilDiv]
  have hrun : RateLimiter.runChecks 60000 5 [t0, t0, t0, t0, t0, t0] none =
      ([⟨true, ⟨5, 4, t0 + 60000, none⟩⟩, ⟨true, ⟨5, 3, t0 + 60000, none⟩⟩,
        ⟨true, ⟨5, 2, t0 + 60000, none⟩⟩, ⟨true, ⟨5, 1, t0 + 60000, none⟩⟩,
        ⟨true, ⟨5, 0, t0 + 60000, none⟩⟩, ⟨false, ⟨5, 0, t0 + 60000, some 60⟩⟩],
        some ⟨5, t0 + 60000, true⟩) := by
    simp only [RateLimiter.runChecks, RateLimiter.applyWrite, h1, h2, h3, h4,
      h5, h6]
  refine ⟨?_, ?_, by omega, ?_⟩
  · rw [hrun]
    rfl
  · rw [hrun]
    rfl
  · rw [hrun]
    rw [check_expired_fresh 60000 5 t7 ⟨5, t0 + 60000, true⟩
      (by show t0 + 60000 < t7; exact h7) (by norm_num)]

/-- Witness for C8 at `t0 = 0` with the post-window retry at time
60001. -/
theorem rl_limit5_scenario_witness :
    ((0 : Int) + 60000 < 60001) ∧
    (((RateLimiter.runChecks 60000 5 [0, 0, 0, 0, 0, 0] none).1.map
        RateLimiter.CheckResult.allowed
        = [true, true, true, true, true, false]) ∧
      ((RateLimiter.runChecks 60000 5
          [0, 0, 0, 0, 0, 0] none).1.getLast?.map (fun c => c.info.reset)
        = some ((0 : Int) + 60000)) ∧
      ((0 : Int) < 0 + 60000) ∧
      ((RateLimiter.check 60000 5
          (RateLimiter.runChecks 60000 5 [0, 0, 0, 0, 0, 0] none).2
          60001).1.allowed = true)) :=
  ⟨by decide, rl_limit5_scenario 0 60001 (by decide)⟩
